import Mathlib

/-
Shallow embedding of the BirdOfTheDay bot (src/src/lib.rs and
src/src/main.rs), a batch job that selects a random bird species from a
local JSON dataset, scrapes photo metadata from a species page,
authenticates to a social-networking service, and publishes a post.

External effects are made explicit parameters:
  - file contents and their JSON parse become an Option (List Bird)
    (none covers both the file-read error and the parse error, which the
    source treats identically by returning None);
  - the random number generator becomes a seed r : Nat, with the
    contract of gen_range(0..n) modelled exactly: a panic when n = 0,
    otherwise a value r % n in the half-open range;
  - every HTTP call becomes a Transport value: err for a transport
    failure, ok for a delivered response; a response carries its status
    code and the views of its body that the source inspects;
  - a Rust panic (unwrap on a missing value, indexing an empty slice) is
    the Res.panic outcome, distinct from the clean failures None/false,
    which are Res.ok none / Res.ok false.
-/

namespace BirdOfTheDay

/-- Outcome of a Rust computation that may panic: Res.panic models an
unwrap or out-of-bounds panic, Res.ok a normal return. -/
inductive Res (α : Type) where
  | panic : Res α
  | ok : α → Res α
deriving Repr, DecidableEq

/-- The Bird record of lib.rs (struct Bird), field for field and in the
order of the source. taxon_order is an f32 in the source; no code path
ever inspects its value, so it is carried as an exact numeral. -/
structure Bird where
  scientific_name : String
  common_name : String
  species_code : String
  category : String
  taxon_order : Int
  banding_codes : Option (List String)
  com_name_codes : Option (List String)
  sci_name_codes : Option (List String)
  order : Option String
  family_com_name : Option String
  family_sci_name : Option String
  report_as : Option String
  extinct : Option Bool
  extinct_year : Option Int
  family_code : Option String
deriving Repr, DecidableEq

/-- The struct BirdImage of lib.rs. -/
structure BirdImage where
  photo_type : String
  url_download : String
  url_source : String
  alt_text : String
deriving Repr, DecidableEq

/-- The struct Token of lib.rs: the accessJwt value and the did value. -/
structure Token where
  token : String
  did : String
deriving Repr, DecidableEq

/-- The four environment variables the program reads via env::var; none
models an absent variable (env::var returns Err, and every read site
calls unwrap on it). -/
structure Env where
  ebird_api_key : Option String
  botd_email : Option String
  botd_handle : Option String
  botd_pass : Option String
deriving Repr, DecidableEq

/-- Result of minreq send(): err is a transport error (the Err arm of the
match on send()), ok a delivered response. -/
inductive Transport (α : Type) where
  | err : Transport α
  | ok : α → Transport α
deriving Repr, DecidableEq

/-- Substring search over character lists: true when pat occurs
contiguously in the list. Embeds Rust str::contains with a literal
pattern. -/
def strContainsAux (pat : List Char) : List Char → Bool
  | [] => pat.isEmpty
  | c :: cs => pat.isPrefixOf (c :: cs) || strContainsAux pat cs

/-- Rust str::contains for string patterns: substring occurrence. -/
def strContains (hay pat : String) : Bool :=
  strContainsAux pat.data hay.data

/-- The literal pattern of the retain filter in get_bird (lib.rs line 136). -/
def spDot : String := "sp."

/-- The retain predicate of get_bird, line 136 of lib.rs:
keep b when the common name does not contain "sp." and the extinct field
is absent. -/
def keepBird (b : Bird) : Bool :=
  !(strContains b.common_name spDot) && b.extinct.isNone

/-- birds.retain(..) of get_bird: the records the filter keeps, in order. -/
def filterBirds (birds : List Bird) : List Bird :=
  birds.filter keepBird

/-- get_bird of lib.rs, after the file read and JSON parse (both folded
into the parsed argument: none is a read or parse error, which the source
maps to None). The random index is gen_range(0..len): it panics on an
empty range, otherwise yields an in-range index, here r % len for an
arbitrary seed r. -/
def getBirdFromData (parsed : Option (List Bird)) (r : Nat) : Res (Option Bird) :=
  match parsed with
  | none => Res.ok none
  | some birds =>
    let fb := filterBirds birds
    if h : fb.length = 0 then Res.panic
    else Res.ok (some (fb.get ⟨r % fb.length, Nat.mod_lt r (Nat.pos_of_ne_zero h)⟩))

/-- The parsed species page as get_bird_photo queries it: for each of the
four structural queries, none means no matching tag in the document, and
some a means the first matching tag with a its queried attribute (none
when the tag lacks that attribute, in which case the source calls unwrap
on attr and panics). Field order follows the order the source runs the
queries: og:image content, og:image:alt content, og:url content,
link image_src type. -/
structure HtmlDoc where
  ogImage : Option (Option String)
  ogImageAlt : Option (Option String)
  ogUrl : Option (Option String)
  imageSrcType : Option (Option String)
deriving Repr, DecidableEq

/-- The scrape response: status_code, and as_str() as an Option (none is
the Err arm for a body that is not valid UTF-8; some doc is the parsed
document, represented by the results of the four queries, since
Html::parse_document itself never fails). -/
structure ScrapeResponse where
  status : Int
  asStr : Option HtmlDoc
deriving Repr, DecidableEq

/-- The tag-extraction tail of get_bird_photo (lib.rs lines 169 to 209):
each of the four queries in source order either finds no tag (clean None
return), finds a tag without the queried attribute (unwrap panic), or
yields its value; all four values build the BirdImage. -/
def getBirdPhotoFromDoc (doc : HtmlDoc) : Res (Option BirdImage) :=
  match doc.ogImage with
  | none => Res.ok none
  | some none => Res.panic
  | some (some url_download) =>
    match doc.ogImageAlt with
    | none => Res.ok none
    | some none => Res.panic
    | some (some alt_text) =>
      match doc.ogUrl with
      | none => Res.ok none
      | some none => Res.panic
      | some (some url_source) =>
        match doc.imageSrcType with
        | none => Res.ok none
        | some none => Res.panic
        | some (some photo_type) =>
          Res.ok (some ⟨photo_type, url_download, url_source, alt_text⟩)

/-- get_bird_photo of lib.rs: reads BOTD_EMAIL with unwrap while building
the request (a panic when absent), then sends; a transport error or a
non-200 status or a non-UTF-8 body is a clean None; otherwise the four
tag queries run. -/
def getBirdPhoto (env : Env) (send : Transport ScrapeResponse) : Res (Option BirdImage) :=
  match env.botd_email with
  | none => Res.panic
  | some _ =>
    match send with
    | Transport.err => Res.ok none
    | Transport.ok r =>
      if r.status ≠ 200 then Res.ok none
      else
        match r.asStr with
        | none => Res.ok none
        | some doc => getBirdPhotoFromDoc doc

/-- A JSON value as the source discriminates it: as_str() succeeds
exactly on a string. -/
inductive JsonValue where
  | str : String → JsonValue
  | other : JsonValue
deriving Repr, DecidableEq

/-- The authentication response body as a JSON object, restricted to the
two fields the source reads with Value::get. -/
structure AuthJson where
  accessJwt : Option JsonValue
  did : Option JsonValue
deriving Repr, DecidableEq

/-- The createSession response: status_code; as_str() (called with unwrap
in the non-200 branch, a panic when the body is not UTF-8); and the
json::<Value>() parse (none is the Err arm). -/
structure AuthResponse where
  status : Int
  asStr : Option String
  json : Option AuthJson
deriving Repr, DecidableEq

/-- authenticate of lib.rs: reads BOTD_HANDLE then BOTD_PASS with unwrap
while building the request body (a panic when either is absent), sends,
then requires status 200, a JSON body, and the accessJwt and did fields
in that order; a present non-string field hits as_str().unwrap() and
panics, a missing field is a clean None. -/
def authenticate (env : Env) (send : Transport AuthResponse) : Res (Option Token) :=
  match env.botd_handle with
  | none => Res.panic
  | some _ =>
    match env.botd_pass with
    | none => Res.panic
    | some _ =>
      match send with
      | Transport.err => Res.ok none
      | Transport.ok r =>
        if r.status ≠ 200 then
          match r.asStr with
          | none => Res.panic
          | some _ => Res.ok none
        else
          match r.json with
          | none => Res.ok none
          | some j =>
            match j.accessJwt with
            | none => Res.ok none
            | some JsonValue.other => Res.panic
            | some (JsonValue.str t) =>
              match j.did with
              | none => Res.ok none
              | some JsonValue.other => Res.panic
              | some (JsonValue.str d) => Res.ok (some ⟨t, d⟩)

/-- The photo-download response in post: status_code and as_str()
(unwrapped in the non-200 error print, a panic when not UTF-8). -/
structure DownloadResponse where
  status : Int
  asStr : Option String
deriving Repr, DecidableEq

/-- The uploadBlob response in post: status_code and the composition of
json::<Value>() with get("blob"): none is a JSON parse error (clean
false), some none a parsed body without a blob field (the source calls
unwrap on get("blob") and panics), some (some v) the blob value,
forwarded verbatim. -/
structure UploadResponse where
  status : Int
  json : Option (Option JsonValue)
deriving Repr, DecidableEq

/-- The createRecord response in post: status_code and as_str()
(unwrapped in the non-200 error print). -/
structure CreateResponse where
  status : Int
  asStr : Option String
deriving Repr, DecidableEq

/-- The literal suffix of the post text, whose byte length fixes the
facet range (lib.rs lines 307 and 317). -/
def imageCredit : String := "Image Credit"

/-- The post text of lib.rs line 307:
format with "{} ({})\n\nImage Credit" applied to the common and
scientific names. -/
def postText (b : Bird) : String :=
  b.common_name ++ " (" ++ b.scientific_name ++ ")\n\n" ++ imageCredit

/-- The outgoing createRecord body of lib.rs lines 308 to 335, restricted
to the values the source computes: repo, text, the facet byte range, the
link URI, createdAt, the image alt text and the forwarded blob value. -/
structure PostRecord where
  repo : String
  text : String
  byteStart : Nat
  byteEnd : Nat
  linkUri : String
  createdAt : String
  alt : String
  image : JsonValue
deriving Repr, DecidableEq

/-- The record post builds: text.len() in Rust is the UTF-8 byte length,
String.utf8ByteSize here; byteStart is text.len() - "Image Credit".len()
(the Rust usize subtraction cannot underflow since the text always ends
in the 12-byte literal, so Nat subtraction agrees). createdAt is the
formatted wall-clock instant, passed in as now. -/
def buildPostRecord (b : Bird) (photo : BirdImage) (token : Token)
    (blobVal : JsonValue) (now : String) : PostRecord :=
  ⟨token.did, postText b,
   (postText b).utf8ByteSize - imageCredit.utf8ByteSize,
   (postText b).utf8ByteSize,
   photo.url_source, now, photo.alt_text, blobVal⟩

/-- post of lib.rs: reads BOTD_EMAIL with unwrap (a panic when absent),
downloads the photo, uploads it as a blob, requires a blob field
(unwrap, a panic when absent), builds the record and submits it; the
createRecord endpoint is a function of the submitted record. Clean
failures return false, full success true. -/
def post (b : Bird) (photo : BirdImage) (token : Token) (env : Env) (now : String)
    (dl : Transport DownloadResponse) (up : Transport UploadResponse)
    (cr : PostRecord → Transport CreateResponse) : Res Bool :=
  match env.botd_email with
  | none => Res.panic
  | some _ =>
    match dl with
    | Transport.err => Res.ok false
    | Transport.ok rphoto =>
      if rphoto.status ≠ 200 then
        match rphoto.asStr with
        | none => Res.panic
        | some _ => Res.ok false
      else
        match up with
        | Transport.err => Res.ok false
        | Transport.ok blob =>
          if blob.status ≠ 200 then Res.ok false
          else
            match blob.json with
            | none => Res.ok false
            | some none => Res.panic
            | some (some blobVal) =>
              match cr (buildPostRecord b photo token blobVal now) with
              | Transport.err => Res.ok false
              | Transport.ok p =>
                if p.status ≠ 200 then
                  match p.asStr with
                  | none => Res.panic
                  | some _ => Res.ok false
                else Res.ok true

/-- The four pipeline steps, for recording which steps a run started. -/
inductive Step where
  | select : Step
  | scrape : Step
  | auth : Step
  | publish : Step
deriving Repr, DecidableEq

/-- run of lib.rs: the four steps in sequence, each abstracted by its
outcome (the scrape outcome depends on the selected bird, the publish
outcome on all three earlier values). Returns the outcome of run together
with the list of steps that started executing, in order. -/
def run (getB : Res (Option Bird)) (getP : Bird → Res (Option BirdImage))
    (auth : Res (Option Token)) (pst : Bird → BirdImage → Token → Res Bool) :
    Res Bool × List Step :=
  match getB with
  | Res.panic => (Res.panic, [Step.select])
  | Res.ok none => (Res.ok false, [Step.select])
  | Res.ok (some b) =>
    match getP b with
    | Res.panic => (Res.panic, [Step.select, Step.scrape])
    | Res.ok none => (Res.ok false, [Step.select, Step.scrape])
    | Res.ok (some img) =>
      match auth with
      | Res.panic => (Res.panic, [Step.select, Step.scrape, Step.auth])
      | Res.ok none => (Res.ok false, [Step.select, Step.scrape, Step.auth])
      | Res.ok (some t) =>
        match pst b img t with
        | Res.panic => (Res.panic, [Step.select, Step.scrape, Step.auth, Step.publish])
        | Res.ok v => (Res.ok v, [Step.select, Step.scrape, Step.auth, Step.publish])

/-- The while loop of main.rs lines 11 to 16, with rs i the boolean
outcome of the (i+1)-th invocation of run. The loop guard
num_attempts < 3 is carried as the remaining count 3 - num_attempts, so
the recursion is structural; each iteration increments num_attempts,
invokes run once, and breaks on true. Returns the final num_attempts. -/
def attemptsFrom (rs : Nat → Bool) (numAttempts : Nat) : Nat → Nat
  | 0 => numAttempts
  | rem + 1 =>
    if rs numAttempts then numAttempts + 1
    else attemptsFrom rs (numAttempts + 1) rem

/-- The final value of num_attempts in main, starting from 0 with the
guard num_attempts < 3. -/
def mainAttempts (rs : Nat → Bool) : Nat :=
  attemptsFrom rs 0 3

/-- main of main.rs: runs the retry loop, then reports the overall error
line exactly when the final num_attempts equals 3 (the if on line 17).
Returns (number of run invocations, whether the error line is printed);
the invocation count equals the final num_attempts since each iteration
invokes run exactly once. -/
def mainDriver (rs : Nat → Bool) : Nat × Bool :=
  (mainAttempts rs, mainAttempts rs == 3)

/-
Concrete fixtures used by the closed theorems below: a well-formed
species record, a species-group placeholder record, environments with
and without the password variable, and stub responses for each endpoint.
-/

/-- A short fixed string used where a concrete body is needed. -/
def sEmpty : String := ""

/-- A concrete API-key value. -/
def sKey : String := "key0"

/-- A concrete contact-email value. -/
def sEmail : String := "bot@example.org"

/-- A concrete account-handle value. -/
def sHandle : String := "bird.example"

/-- A concrete account-password value. -/
def sPass : String := "hunter2"

/-- A concrete access-token value. -/
def sTok : String := "tok"

/-- A concrete account-identifier value. -/
def sDid : String := "did:abc"

/-- A concrete formatted timestamp. -/
def sNow : String := "2024-01-01T00:00:00Z"

/-- A concrete image alt text. -/
def sAlt : String := "a blue jay"

/-- A concrete image content type. -/
def sType : String := "image/jpeg"

/-- A concrete image download URL. -/
def sImgUrl : String := "cdn/img.jpg"

/-- A concrete canonical source URL. -/
def sSrcUrl : String := "ebird/blujay"

/-- A well-formed species record: not a group placeholder, extinct field
absent. -/
def birdBlueJay : Bird :=
  ⟨"Cyanocitta cristata", "Blue Jay", "blujay", "species", 1,
   none, none, none, none, none, none, none, none, none, none⟩

/-- A species-group placeholder record: its common name contains "sp.",
so the retain filter drops it. -/
def gullSp : Bird :=
  ⟨"Larus sp.", "gull sp.", "gull1", "spuh", 2,
   none, none, none, none, none, none, none, none, none, none⟩

/-- An environment with all four variables set. -/
def envFull : Env := ⟨some sKey, some sEmail, some sHandle, some sPass⟩

/-- An environment whose password variable is absent. -/
def envNoPass : Env := ⟨some sKey, some sEmail, some sHandle, none⟩

/-- A species page carrying all four meta/link values. -/
def docGood : HtmlDoc :=
  ⟨some (some sImgUrl), some (some sAlt), some (some sSrcUrl), some (some sType)⟩

/-- A species page whose og:image tag is present but lacks its content
attribute, the other three values present. -/
def docBareOgImage : HtmlDoc :=
  ⟨some none, some (some sAlt), some (some sSrcUrl), some (some sType)⟩

/-- The BirdImage docGood yields. -/
def imgStub : BirdImage := ⟨sType, sImgUrl, sSrcUrl, sAlt⟩

/-- A concrete session token. -/
def tokStub : Token := ⟨sTok, sDid⟩

/-- An authentication body with both fields present as strings. -/
def authJsonGood : AuthJson :=
  ⟨some (JsonValue.str sTok), some (JsonValue.str sDid)⟩

/-- An authentication body whose accessJwt is present but not a string
and whose did field is missing. -/
def authJsonBadJwt : AuthJson := ⟨some JsonValue.other, none⟩

/-- A 200 authentication response carrying both fields. -/
def authRespGood : AuthResponse := ⟨200, some sEmpty, some authJsonGood⟩

/-- A 200 photo download response. -/
def dlOk : DownloadResponse := ⟨200, some sEmpty⟩

/-- A 200 upload response carrying a blob field. -/
def upOk : UploadResponse := ⟨200, some (some JsonValue.other)⟩

/-- A 200 upload response whose parsed JSON body has no blob field. -/
def upNoBlob : UploadResponse := ⟨200, some none⟩

/-- A 200 createRecord response. -/
def crOk : CreateResponse := ⟨200, some sEmpty⟩

/-- Run outcomes where only the third invocation of run succeeds. -/
def thirdTry : Nat → Bool := fun n => n == 2

/-- Claim C1: the spec requires that when the dataset parses but the
filtered subset is empty, get_bird fails cleanly by returning no result.
The code instead panics: gen_range(0..0) on the empty filtered list.
Here the dataset parses successfully, the filtered subset is empty, and
the outcome is a panic, not a clean None. -/
theorem getBird_empty_filtered_panics :
    filterBirds [gullSp] = [] ∧
    getBirdFromData (some [gullSp]) 0 = Res.panic ∧
    getBirdFromData (some [gullSp]) 0 ≠ Res.ok none := by
  decide

/-- Claim C3: the spec requires the driver to report an overall error
exactly when all 3 attempts fail. In the code the error line is printed
whenever num_attempts reaches 3, which also happens when the first two
attempts fail and the third succeeds: here the third invocation of run
returns true, yet mainDriver still reports the error. -/
theorem mainDriver_error_despite_success :
    thirdTry 0 = false ∧ thirdTry 1 = false ∧ thirdTry 2 = true ∧
    mainDriver thirdTry = (3, true) := by
  decide

/-- Claim C2 counterexample: the publish step does not convert every
internal error to an absent result. A 200 upload response whose parsed
JSON body lacks the blob field makes post panic (get("blob").unwrap()),
so a panic escapes the step instead of a false return. -/
theorem post_missing_blob_panics :
    post birdBlueJay imgStub tokStub envFull sNow
      (Transport.ok dlOk) (Transport.ok upNoBlob) (fun _ => Transport.ok crOk)
      = Res.panic := by
  decide

/-- Claim C6 counterexample: a document whose og:image tag is present but
carries no content attribute has that required value absent, yet
get_bird_photo panics on attr("content").unwrap() instead of failing by
returning no result. -/
theorem scraper_bare_tag_panics :
    getBirdPhotoFromDoc docBareOgImage = Res.panic ∧
    getBirdPhotoFromDoc docBareOgImage ≠ Res.ok none := by
  decide

/-- Claim C7 counterexample: a 200 response whose JSON body has the did
field missing (and accessJwt present as a non-string) makes authenticate
panic on as_str().unwrap() instead of failing by returning no result. -/
theorem authenticate_missing_did_panics :
    authJsonBadJwt.did = none ∧
    authenticate envFull (Transport.ok ⟨200, some sEmpty, some authJsonBadJwt⟩)
      = Res.panic := by
  decide

/-- Claim C8 counterexample: with the password variable absent, the
pipeline is not stopped at startup: selection and scraping run (and the
scrape succeeds), and the process only panics inside the authentication
step when BOTD_PASS is first read. -/
theorem run_steps_before_env_check :
    envNoPass.botd_pass = none ∧
    run (getBirdFromData (some [birdBlueJay]) 0)
        (fun _ => getBirdPhoto envNoPass (Transport.ok ⟨200, some docGood⟩))
        (authenticate envNoPass (Transport.ok authRespGood))
        (fun b img t => post b img t envNoPass sNow
          (Transport.ok dlOk) (Transport.ok upOk) (fun _ => Transport.ok crOk))
      = (Res.panic, [Step.select, Step.scrape, Step.auth]) := by
  decide

/-- Auxiliary: the UTF-8 byte count of a concatenation of character
lists is the sum of the byte counts. -/
theorem utf8Go_append (l1 l2 : List Char) :
    String.utf8ByteSize.go (l1 ++ l2)
      = String.utf8ByteSize.go l1 + String.utf8ByteSize.go l2 := by
  induction l1 with
  | nil => simp [String.utf8ByteSize.go]
  | cons c cs ih =>
    simp [String.utf8ByteSize.go, ih]
    omega

/-- Auxiliary: UTF-8 byte length is additive over string append. -/
theorem utf8ByteSize_append (a b : String) :
    (a ++ b).utf8ByteSize = a.utf8ByteSize + b.utf8ByteSize := by
  cases a with
  | mk da =>
    cases b with
    | mk db =>
      show String.utf8ByteSize.go (da ++ db)
        = String.utf8ByteSize.go da + String.utf8ByteSize.go db
      exact utf8Go_append da db

/-- Claim C4: for every post record the publisher builds, for any common
and scientific name (multi-byte characters included, since the names
range over all strings), byteEnd is the UTF-8 byte length of the text,
byteStart is byteEnd minus the byte length of "Image Credit", and the
range spans exactly the trailing "Image Credit": the text is some prefix
followed by that literal, byteStart is the byte length of the prefix and
byteEnd the byte length of the whole. -/
theorem post_facet_byte_range (b : Bird) (photo : BirdImage) (token : Token)
    (blobVal : JsonValue) (now : String) :
    (buildPostRecord b photo token blobVal now).text = postText b
    ∧ (buildPostRecord b photo token blobVal now).byteEnd = (postText b).utf8ByteSize
    ∧ (buildPostRecord b photo token blobVal now).byteStart
        = (postText b).utf8ByteSize - imageCredit.utf8ByteSize
    ∧ ∃ p, postText b = p ++ imageCredit
        ∧ (buildPostRecord b photo token blobVal now).byteStart = p.utf8ByteSize
        ∧ (buildPostRecord b photo token blobVal now).byteEnd
            = p.utf8ByteSize + imageCredit.utf8ByteSize := by
  have hsplit : postText b
      = (b.common_name ++ " (" ++ b.scientific_name ++ ")\n\n") ++ imageCredit := rfl
  refine ⟨rfl, rfl, rfl,
    b.common_name ++ " (" ++ b.scientific_name ++ ")\n\n", hsplit, ?_, ?_⟩
  · show (postText b).utf8ByteSize - imageCredit.utf8ByteSize
      = (b.common_name ++ " (" ++ b.scientific_name ++ ")\n\n").utf8ByteSize
    rw [hsplit, utf8ByteSize_append, Nat.add_sub_cancel]
  · show (postText b).utf8ByteSize
      = (b.common_name ++ " (" ++ b.scientific_name ++ ")\n\n").utf8ByteSize
        + imageCredit.utf8ByteSize
    rw [hsplit, utf8ByteSize_append]

/-- Claim C5: for every dataset with at least one record the filter
keeps, and for every random seed, selection returns some record of the
dataset that the filter keeps (so never a group placeholder or a record
with an extinct flag). -/
theorem getBird_selects_from_filtered (birds : List Bird) (r : Nat)
    (h : ∃ b, b ∈ birds ∧ keepBird b = true) :
    ∃ b2, getBirdFromData (some birds) r = Res.ok (some b2)
      ∧ b2 ∈ birds ∧ keepBird b2 = true := by
  obtain ⟨b, hb, hk⟩ := h
  have hmem : b ∈ filterBirds birds := List.mem_filter.mpr ⟨hb, hk⟩
  have hpos : 0 < (filterBirds birds).length :=
    List.length_pos.mpr (List.ne_nil_of_mem hmem)
  have hne : ¬ (filterBirds birds).length = 0 := Nat.pos_iff_ne_zero.mp hpos
  have hlt : r % (filterBirds birds).length < (filterBirds birds).length :=
    Nat.mod_lt r hpos
  have hg : (filterBirds birds).get ⟨r % (filterBirds birds).length, hlt⟩
      ∈ filterBirds birds := List.get_mem _ _ _
  obtain ⟨hgb, hgk⟩ := List.mem_filter.mp hg
  refine ⟨(filterBirds birds).get ⟨r % (filterBirds birds).length, hlt⟩,
    ?_, hgb, hgk⟩
  simp only [getBirdFromData]
  rw [dif_neg hne]

/-- Witness for claim C5 at a concrete dataset and seed: a two-record
dataset holding one placeholder and one eligible record. -/
theorem getBird_selects_from_filtered_witness :
    ∃ b2, getBirdFromData (some [gullSp, birdBlueJay]) 5 = Res.ok (some b2)
      ∧ b2 ∈ [gullSp, birdBlueJay] ∧ keepBird b2 = true :=
  getBird_selects_from_filtered [gullSp, birdBlueJay] 5
    ⟨birdBlueJay, by decide, by decide⟩

/-- Claim C10: the selection filter retains exactly the records whose
common name does not contain "sp." and whose extinct field is absent;
consequently any record selection returns has no "sp." in its common
name and an absent extinct field, in particular never an extinct flag
explicitly set to false. -/
theorem filter_retains_exactly (birds : List Bird) (b : Bird) (r : Nat) :
    (b ∈ filterBirds birds ↔
      (b ∈ birds ∧ strContains b.common_name spDot = false ∧ b.extinct = none))
    ∧ (∀ b2, getBirdFromData (some birds) r = Res.ok (some b2) →
        strContains b2.common_name spDot = false ∧ b2.extinct = none
          ∧ b2.extinct ≠ some false) := by
  have hkeep : ∀ b3 : Bird, keepBird b3 = true ↔
      (strContains b3.common_name spDot = false ∧ b3.extinct = none) := by
    intro b3
    simp [keepBird, Bool.and_eq_true, Bool.not_eq_true', Option.isNone_iff_eq_none]
  constructor
  · rw [filterBirds, List.mem_filter]
    constructor
    · rintro ⟨h1, h2⟩
      exact ⟨h1, (hkeep b).mp h2⟩
    · rintro ⟨h1, h2, h3⟩
      exact ⟨h1, (hkeep b).mpr ⟨h2, h3⟩⟩
  · intro b2 hres
    by_cases h0 : (filterBirds birds).length = 0
    · simp only [getBirdFromData] at hres
      rw [dif_pos h0] at hres
      simp at hres
    · simp only [getBirdFromData] at hres
      rw [dif_neg h0] at hres
      simp only [Res.ok.injEq, Option.some.injEq] at hres
      have hm : b2 ∈ filterBirds birds := by
        rw [← hres]
        exact List.get_mem _ _ _
      obtain ⟨_, hk2⟩ := List.mem_filter.mp hm
      obtain ⟨hc, hext⟩ := (hkeep b2).mp hk2
      refine ⟨hc, hext, ?_⟩
      rw [hext]
      simp

/-- Claim C9: run returns true exactly when all four steps succeed in
sequence, and a clean failure at any step makes run return false
immediately, with the trailing steps never started (the trace records
exactly the steps that began executing). -/
theorem run_true_iff_steps (gB : Res (Option Bird)) (gP : Bird → Res (Option BirdImage))
    (au : Res (Option Token)) (ps : Bird → BirdImage → Token → Res Bool) :
    ((run gB gP au ps).1 = Res.ok true ↔
      ∃ b img t, gB = Res.ok (some b) ∧ gP b = Res.ok (some img)
        ∧ au = Res.ok (some t) ∧ ps b img t = Res.ok true)
    ∧ (gB = Res.ok none → run gB gP au ps = (Res.ok false, [Step.select]))
    ∧ (∀ b, gB = Res.ok (some b) → gP b = Res.ok none →
        run gB gP au ps = (Res.ok false, [Step.select, Step.scrape]))
    ∧ (∀ b img, gB = Res.ok (some b) → gP b = Res.ok (some img) →
        au = Res.ok none →
        run gB gP au ps = (Res.ok false, [Step.select, Step.scrape, Step.auth]))
    ∧ (∀ b img t, gB = Res.ok (some b) → gP b = Res.ok (some img) →
        au = Res.ok (some t) → ps b img t = Res.ok false →
        run gB gP au ps
          = (Res.ok false, [Step.select, Step.scrape, Step.auth, Step.publish])) := by
  refine ⟨?_, ?_, ?_, ?_, ?_⟩
  · cases gB with
    | panic => simp [run]
    | ok ob =>
      cases ob with
      | none => simp [run]
      | some b =>
        cases hp : gP b with
        | panic => simp [run, hp]
        | ok oi =>
          cases oi with
          | none => simp [run, hp]
          | some img =>
            cases au with
            | panic => simp [run, hp]
            | ok ot =>
              cases ot with
              | none => simp [run, hp]
              | some t =>
                cases hps : ps b img t with
                | panic => simp [run, hp, hps]
                | ok v => cases v <;> simp [run, hp, hps]
  · intro h1
    simp [run, h1]
  · intro b h1 h2
    simp [run, h1, h2]
  · intro b img h1 h2 h3
    simp [run, h1, h2, h3]
  · intro b img t h1 h2 h3 h4
    simp [run, h1, h2, h3, h4]

/-- Claim C6 as amended: the scraper returns a BirdImage exactly when all
four tag queries yield their attribute values, and the components of the
returned BirdImage equal those values (so no partial result is ever
returned); when some required tag is absent from the document and no
present tag lacks its attribute, the scraper fails cleanly by returning
no result. -/
theorem scraper_success_iff_all_values (doc : HtmlDoc) :
    (∀ img : BirdImage, getBirdPhotoFromDoc doc = Res.ok (some img) ↔
      (doc.ogImage = some (some img.url_download)
       ∧ doc.ogImageAlt = some (some img.alt_text)
       ∧ doc.ogUrl = some (some img.url_source)
       ∧ doc.imageSrcType = some (some img.photo_type)))
    ∧ ((doc.ogImage = none ∨ doc.ogImageAlt = none ∨ doc.ogUrl = none
        ∨ doc.imageSrcType = none) →
       doc.ogImage ≠ some none → doc.ogImageAlt ≠ some none →
       doc.ogUrl ≠ some none → doc.imageSrcType ≠ some none →
       getBirdPhotoFromDoc doc = Res.ok none) := by
  obtain ⟨a, al, u, ty⟩ := doc
  constructor
  · intro img
    obtain ⟨ity, idl, isrc, ialt⟩ := img
    rcases a with _ | (_ | av) <;> rcases al with _ | (_ | alv) <;>
      rcases u with _ | (_ | uv) <;> rcases ty with _ | (_ | tyv) <;>
      (simp [getBirdPhotoFromDoc]; try tauto)
  · rcases a with _ | (_ | av) <;> rcases al with _ | (_ | alv) <;>
      rcases u with _ | (_ | uv) <;> rcases ty with _ | (_ | tyv) <;>
      simp [getBirdPhotoFromDoc]

/-- Claim C7 as amended: with the credential variables set, a 200
response whose JSON body holds both accessJwt and did as strings makes
authenticate return exactly that token and identifier pair; a body with
accessJwt missing, or with accessJwt a string and did missing, makes it
return no result (a present non-string field instead panics, see the
counterexample). -/
theorem authenticate_amended (env : Env) (hdl pw : String)
    (hh : env.botd_handle = some hdl) (hp : env.botd_pass = some pw) :
    (∀ (j : AuthJson) (t d : String) (s : Option String),
       j.accessJwt = some (JsonValue.str t) → j.did = some (JsonValue.str d) →
       authenticate env (Transport.ok ⟨200, s, some j⟩) = Res.ok (some ⟨t, d⟩))
    ∧ (∀ (j : AuthJson) (s : Option String), j.accessJwt = none →
       authenticate env (Transport.ok ⟨200, s, some j⟩) = Res.ok none)
    ∧ (∀ (j : AuthJson) (t : String) (s : Option String),
       j.accessJwt = some (JsonValue.str t) → j.did = none →
       authenticate env (Transport.ok ⟨200, s, some j⟩) = Res.ok none) := by
  refine ⟨?_, ?_, ?_⟩
  · intro j t d s hjwt hdid
    simp [authenticate, hh, hp, hjwt, hdid]
  · intro j s hjwt
    simp [authenticate, hh, hp, hjwt]
  · intro j t s hjwt hdid
    simp [authenticate, hh, hp, hjwt, hdid]

/-- Witness for claim C7 at a concrete environment and response: both
fields present as strings, yielding exactly that pair. -/
theorem authenticate_amended_witness :
    authenticate envFull (Transport.ok ⟨200, some sEmpty, some authJsonGood⟩)
      = Res.ok (some ⟨sTok, sDid⟩) :=
  (authenticate_amended envFull sHandle sPass rfl rfl).1
    authJsonGood sTok sDid (some sEmpty) rfl rfl

/-- Claim C2 as amended: each step converts its handled internal errors
into an absent or false result rather than a panic: a file-read or parse
error in selection; a transport error, a non-200 status, a non-UTF-8
body or a missing leading tag in the scrape; a transport error, a
non-200 status with a UTF-8 body, an unparsable JSON body or a missing
accessJwt field in authentication; and in publishing a transport error
at any of the three calls, a non-200 status with a UTF-8 body at
download or createRecord, a non-200 upload status, or an unparsable
upload body. (Unwraps on other malformed inputs still panic, see the
counterexample.) -/
theorem steps_handle_internal_errors (env : Env) (e hdl pw : String)
    (he : env.botd_email = some e) (hh : env.botd_handle = some hdl)
    (hp : env.botd_pass = some pw) :
    (∀ r, getBirdFromData none r = Res.ok none)
    ∧ getBirdPhoto env Transport.err = Res.ok none
    ∧ (∀ (st : Int) (d : Option HtmlDoc), st ≠ 200 →
        getBirdPhoto env (Transport.ok ⟨st, d⟩) = Res.ok none)
    ∧ getBirdPhoto env (Transport.ok ⟨200, none⟩) = Res.ok none
    ∧ (∀ doc : HtmlDoc, doc.ogImage = none →
        getBirdPhoto env (Transport.ok ⟨200, some doc⟩) = Res.ok none)
    ∧ authenticate env Transport.err = Res.ok none
    ∧ (∀ (st : Int) (s : String) (j : Option AuthJson), st ≠ 200 →
        authenticate env (Transport.ok ⟨st, some s, j⟩) = Res.ok none)
    ∧ (∀ s : Option String,
        authenticate env (Transport.ok ⟨200, s, none⟩) = Res.ok none)
    ∧ (∀ j : AuthJson, j.accessJwt = none → ∀ s : Option String,
        authenticate env (Transport.ok ⟨200, s, some j⟩) = Res.ok none)
    ∧ (∀ b photo token now up cr,
        post b photo token env now Transport.err up cr = Res.ok false)
    ∧ (∀ b photo token now (st : Int) (s : String) up cr, st ≠ 200 →
        post b photo token env now (Transport.ok ⟨st, some s⟩) up cr = Res.ok false)
    ∧ (∀ b photo token now cr,
        post b photo token env now (Transport.ok dlOk) Transport.err cr = Res.ok false)
    ∧ (∀ b photo token now (st : Int) (j : Option (Option JsonValue)) cr, st ≠ 200 →
        post b photo token env now (Transport.ok dlOk) (Transport.ok ⟨st, j⟩) cr
          = Res.ok false)
    ∧ (∀ b photo token now cr,
        post b photo token env now (Transport.ok dlOk) (Transport.ok ⟨200, none⟩) cr
          = Res.ok false)
    ∧ (∀ b photo token now,
        post b photo token env now (Transport.ok dlOk) (Transport.ok upOk)
          (fun _ => Transport.err) = Res.ok false)
    ∧ (∀ b photo token now (st : Int) (s : String), st ≠ 200 →
        post b photo token env now (Transport.ok dlOk) (Transport.ok upOk)
          (fun _ => Transport.ok ⟨st, some s⟩) = Res.ok false) := by
  refine ⟨?_, ?_, ?_, ?_, ?_, ?_, ?_, ?_, ?_, ?_, ?_, ?_, ?_, ?_, ?_, ?_⟩
  · intro r
    simp [getBirdFromData]
  · simp [getBirdPhoto, he]
  · intro st d hst
    simp [getBirdPhoto, he, hst]
  · simp [getBirdPhoto, he]
  · intro doc hdoc
    simp [getBirdPhoto, getBirdPhotoFromDoc, he, hdoc]
  · simp [authenticate, hh, hp]
  · intro st s j hst
    simp [authenticate, hh, hp, hst]
  · intro s
    simp [authenticate, hh, hp]
  · intro j hj s
    simp [authenticate, hh, hp, hj]
  · intro b photo token now up cr
    simp [post, he]
  · intro b photo token now st s up cr hst
    simp [post, he, hst]
  · intro b photo token now cr
    simp [post, he, dlOk]
  · intro b photo token now st j cr hst
    simp [post, he, dlOk, hst]
  · intro b photo token now cr
    simp [post, he, dlOk]
  · intro b photo token now
    simp [post, he, dlOk, upOk]
  · intro b photo token now st s hst
    simp [post, he, dlOk, upOk, hst]

/-- Witness for claim C2 at a concrete environment: a transport error in
the scrape step is converted to an absent result. -/
theorem steps_handle_internal_errors_witness :
    getBirdPhoto envFull Transport.err = Res.ok none :=
  (steps_handle_internal_errors envFull sEmail sHandle sPass rfl rfl rfl).2.1

/-- Claim C8 as amended: the absence of a required environment variable
is fatal, but it is detected only when the variable is first read inside
a pipeline step, not at startup: a missing contact email panics the
scrape step and the publish step, and a missing handle or password
panics the authentication step, whatever the responses are; earlier
steps have already run by then. -/
theorem env_missing_fatal_at_first_read (env : Env) :
    (env.botd_email = none → ∀ s, getBirdPhoto env s = Res.panic)
    ∧ ((env.botd_handle = none ∨ env.botd_pass = none) →
        ∀ s, authenticate env s = Res.panic)
    ∧ (env.botd_email = none →
        ∀ b photo token now dl up cr,
          post b photo token env now dl up cr = Res.panic) := by
  refine ⟨?_, ?_, ?_⟩
  · intro h s
    simp [getBirdPhoto, h]
  · intro h s
    rcases h with h | h
    · simp [authenticate, h]
    · cases hh : env.botd_handle with
      | none => simp [authenticate, hh]
      | some v => simp [authenticate, hh, h]
  · intro h b photo token now dl up cr
    simp [post, h]

end BirdOfTheDay
